import Mathlib

/-!
Verification of the multi-backend tensor-type dispatch utility of xpag
(`src/xpag/tools/utils.py`): classification of values into backend tags
(`get_datatype`), conversion between tags (`datatype_convert`), the
backend-dispatching dual-operand operations (`hstack`, `maximum`, `where`),
and the environment-dimension helper (`get_env_dimensions`).

The embedding is shallow: the runtime values the Python code can receive are
modelled by the inductive `Value`, whose constructors correspond to the four
concrete representations the code distinguishes (torch tensors carrying a
device and a requires-grad flag, jax DeviceArrays, numpy ndarrays, and plain
Python lists/scalars).  Numeric buffer contents are modelled exactly (integer
data), since none of the dispatch logic inspects element values.  External
library calls (`Tensor.to`, `detach().cpu().numpy()`, `np.array`,
`jnp.array`, `np.hstack`, ...) are modelled by their documented
value-preserving semantics at the level the dispatch logic uses them.
-/

namespace Xpag

/-- A numeric buffer: a shape and exact element data.  Element values are
modelled as integers; the dispatch logic under verification never inspects
them, it only moves them between representations. -/
structure Buffer where
  shape : List Nat
  data : List Int
  deriving DecidableEq, Repr

/-- The device a torch tensor resides on: `x.device.type` is `"cpu"`,
`"cuda"`, or some other kind (e.g. `"xla"`), kept as a string. -/
inductive TorchDevice where
  | cpu
  | cuda
  | other (kind : String)
  deriving DecidableEq, Repr

/-- A runtime value as seen by the utility module: a torch tensor (with its
device and requires-grad flag), a jax `DeviceArray`, a numpy `ndarray`, or a
plain Python list/scalar (anything matching none of the three backend
types). -/
inductive Value where
  | torch (dev : TorchDevice) (requiresGrad : Bool) (buf : Buffer)
  | deviceArray (buf : Buffer)
  | ndarray (buf : Buffer)
  | pyList (buf : Buffer)
  deriving DecidableEq, Repr

/-- The `DataType` enum of the source. -/
inductive DataType where
  | TORCH_CPU
  | TORCH_CUDA
  | NUMPY
  | JAX
  deriving DecidableEq, Repr

/-- The two distinct `TypeError` raise sites of the source: an unsupported
torch device kind, and a value matching none of the known backend types. -/
inductive TypeErr where
  | unsupportedDevice (msg : String)
  | unrecognizedType (msg : String)
  deriving DecidableEq, Repr

/-- Models `torch.is_tensor(x)`. -/
def is_tensor : Value → Bool
  | .torch _ _ _ => true
  | _ => false

/-- Models `isinstance(x, DeviceArray)`. -/
def is_device_array : Value → Bool
  | .deviceArray _ => true
  | _ => false

/-- Models `isinstance(x, np.ndarray)`. -/
def is_ndarray : Value → Bool
  | .ndarray _ => true
  | _ => false

/-- The device of a torch tensor (`x.device.type`); defaulting to `cpu` on
the non-tensor constructors, on which the source never reads it. -/
def device_of : Value → TorchDevice
  | .torch d _ _ => d
  | _ => .cpu

/-- The `requires_grad` flag of a torch tensor; `false` on the other
constructors, which carry no gradient tracking. -/
def requires_grad_of : Value → Bool
  | .torch _ g _ => g
  | _ => false

/-- The underlying numeric buffer of any value, used to state numerical
(element-wise) equality between values of different representations. -/
def bufferOf : Value → Buffer
  | .torch _ _ b => b
  | .deviceArray b => b
  | .ndarray b => b
  | .pyList b => b

/-- Function `get_datatype` (utils.py lines 20-35): classify a value by its runtime
representation, first match wins: torch tensor (then by device kind), then
`DeviceArray`, then `np.ndarray`, else `TypeError`. -/
def get_datatype (x : Value) : Except TypeErr DataType :=
  if is_tensor x then
    match device_of x with
    | .cpu => .ok .TORCH_CPU
    | .cuda => .ok .TORCH_CUDA
    | .other _ =>
        .error (.unsupportedDevice
          "PyTorch devices other than CPU or CUDA (e.g. XLA) are not handled.")
  else if is_device_array x then
    .ok .JAX
  else if is_ndarray x then
    .ok .NUMPY
  else
    .error (.unrecognizedType "type of x not handled.")

/-- Models `Tensor.to(device=d)`: returns the tensor itself when it already resides
on `d`, otherwise a copy of the same data on `d` (requires-grad preserved).
On non-tensor values (on which the source never calls it) it is the
identity. -/
def torch_to (x : Value) (d : TorchDevice) : Value :=
  match x with
  | .torch d0 g b => if d0 = d then x else .torch d g b
  | v => v

/-- Models `x.detach().cpu().numpy()`: strip gradient tracking, move to host, view
as a numpy array with the same contents. -/
def detach_cpu_numpy (x : Value) : Value :=
  .ndarray (bufferOf x)

/-- Models `np.array(x)`: a numpy array holding `x`'s contents. -/
def np_array (x : Value) : Value :=
  .ndarray (bufferOf x)

/-- Models `jnp.array(x)`: a jax `DeviceArray` holding `x`'s contents. -/
def jnp_array (x : Value) : Value :=
  .deviceArray (bufferOf x)

/-- Models `torch.tensor(x, device=d)`: a fresh tensor on device `d` holding `x`'s
contents, with `requires_grad=False`. -/
def torch_tensor (x : Value) (d : TorchDevice) : Value :=
  .torch d false (bufferOf x)

/-- Function `datatype_convert` (utils.py lines 38-73) with the target passed
explicitly; `none` models the Python `None` sentinel.  The Python default
argument (`datatype=DataType.NUMPY`) is modelled by
`datatype_convert_default`. -/
def datatype_convert (x : Value) (datatype : Option DataType) : Value :=
  match datatype with
  | none => x
  | some dt =>
    if dt = .TORCH_CPU ∨ dt = .TORCH_CUDA then
      if is_tensor x then
        if dt = .TORCH_CPU then torch_to x .cpu else torch_to x .cuda
      else if is_device_array x then
        if dt = .TORCH_CPU then torch_tensor (np_array x) .cpu
        else torch_tensor (np_array x) .cuda
      else
        if dt = .TORCH_CPU then torch_tensor x .cpu else torch_tensor x .cuda
    else if dt = .NUMPY then
      if is_tensor x then detach_cpu_numpy x
      else if is_ndarray x then x
      else np_array x
    else
      if is_tensor x then jnp_array (detach_cpu_numpy x)
      else if is_device_array x then x
      else jnp_array x

/-- A call of `datatype_convert` with the `datatype` argument omitted: the
source declares the default `datatype: Union[DataType, None] = DataType.NUMPY`,
so an omitted target means conversion to numpy, not passthrough. -/
def datatype_convert_default (x : Value) : Value :=
  datatype_convert x (some .NUMPY)

/-- Models `np.hstack((a, b))` on host buffers, modelled for the one-dimensional
case: concatenation of the data, shapes added along the stacking axis. -/
def hstackBuf (a b : Buffer) : Buffer :=
  ⟨[a.data.length + b.data.length], a.data ++ b.data⟩

/-- Element-wise `maximum` on host buffers (same-shape operands): the shape
of the first operand, the pointwise maximum of the data. -/
def maximumBuf (a b : Buffer) : Buffer :=
  ⟨a.shape, List.zipWith max a.data b.data⟩

/-- Element-wise `where(condition, a, b)` on host buffers (same-shape
operands): picks from `a` where the condition element is nonzero, from `b`
elsewhere. -/
def whereBuf (c a b : Buffer) : Buffer :=
  ⟨a.shape, List.zipWith (fun p q => if p.1 ≠ 0 then p.2 else q)
      (List.zip c.data a.data) b.data⟩

/-- Host coercion applied by the numpy fallback branches of the dual-operand
ops: any operand is viewed as a numpy array of its contents. -/
def np_coerce (x : Value) : Buffer :=
  bufferOf x

/-- Function `hstack` (utils.py lines 86-95): `torch.hstack` when both operands are
torch tensors (result on the first operand's device, gradient tracked if
either operand tracks it), `jnp.hstack` when both are `DeviceArray`s, else
the numpy fallback on host-coerced operands. -/
def hstack (x y : Value) : Value :=
  if is_tensor x && is_tensor y then
    .torch (device_of x) (requires_grad_of x || requires_grad_of y)
      (hstackBuf (bufferOf x) (bufferOf y))
  else if is_device_array x && is_device_array y then
    .deviceArray (hstackBuf (bufferOf x) (bufferOf y))
  else
    .ndarray (hstackBuf (np_coerce x) (np_coerce y))

/-- Function `maximum` (utils.py lines 98-107): same dispatch as `hstack`, applying
the element-wise maximum of the chosen backend. -/
def maximum (x y : Value) : Value :=
  if is_tensor x && is_tensor y then
    .torch (device_of x) (requires_grad_of x || requires_grad_of y)
      (maximumBuf (bufferOf x) (bufferOf y))
  else if is_device_array x && is_device_array y then
    .deviceArray (maximumBuf (bufferOf x) (bufferOf y))
  else
    .ndarray (maximumBuf (np_coerce x) (np_coerce y))

/-- Function `where` (utils.py lines 121-131): dispatches on the two data operands
only; the condition is passed through to the chosen backend's select. -/
def where_select (condition x y : Value) : Value :=
  if is_tensor x && is_tensor y then
    .torch (device_of x) (requires_grad_of x || requires_grad_of y)
      (whereBuf (bufferOf condition) (bufferOf x) (bufferOf y))
  else if is_device_array x && is_device_array y then
    .deviceArray (whereBuf (bufferOf condition) (bufferOf x) (bufferOf y))
  else
    .ndarray (whereBuf (np_coerce condition) (np_coerce x) (np_coerce y))

/-- A Python value stored in the `info` dictionary by `get_env_dimensions`:
either `None` or an integer dimension. -/
inductive PyVal where
  | noneVal
  | intVal (n : Int)
  deriving DecidableEq, Repr

/-- A Python dictionary with string keys, modelled as an association list in
which the most recent binding of a key shadows older ones. -/
def Dict := List (String × PyVal)

/-- Models `d[k] = v`: bind `k` to `v`; `List.lookup` reads the newest binding. -/
def dictSet (k : String) (v : PyVal) (d : Dict) : Dict :=
  (k, v) :: d

/-- The shape attributes `get_env_dimensions` reads from an observation
space: `space.shape[-1]` when the space is used as a plain space, and
`space[key].shape[-1]` for the three goal-env keys.  Each last dimension is
stored directly, modelling an environment accepted by the function (every
attribute access and `shape[-1]` indexing succeeds). -/
structure ObsSpace where
  plainLast : Int
  observationLast : Int
  achievedGoalLast : Int
  desiredGoalLast : Int
  deriving DecidableEq, Repr

/-- The attributes `get_env_dimensions` reads from an environment object:
the optional `is_vector_env` flag (`none` models a missing attribute), the
last dimension of the (single-)action space shape, and the
(single-)observation spaces. -/
structure Env where
  is_vector_env : Option Bool
  actionLast : Int
  singleActionLast : Int
  observation_space : ObsSpace
  single_observation_space : ObsSpace
  deriving DecidableEq, Repr

/-- Function `get_env_dimensions` (utils.py lines 134-175).  The Python function
mutates the caller's `info` dict and returns the local `dims` dict; the
model returns the pair `(returned dims, info after the call)`. -/
def get_env_dimensions (info : Dict) (is_goalenv : Bool) (env : Env) :
    Dict × Dict :=
  let gymvecenv := match env.is_vector_env with
    | some b => b
    | none => false
  let dims : Dict := []
  if gymvecenv then
    let info := dictSet "action_dim" (.intVal env.singleActionLast) info
    let info := dictSet "observation_dim"
      (.intVal (if is_goalenv then env.single_observation_space.observationLast
        else env.single_observation_space.plainLast)) info
    let info := dictSet "achieved_goal_dim"
      (if is_goalenv then .intVal env.single_observation_space.achievedGoalLast
        else .noneVal) info
    let info := dictSet "desired_goal_dim"
      (if is_goalenv then .intVal env.single_observation_space.desiredGoalLast
        else .noneVal) info
    (dims, info)
  else
    let info := dictSet "action_dim" (.intVal env.actionLast) info
    let info := dictSet "observation_dim"
      (.intVal (if is_goalenv then env.observation_space.observationLast
        else env.observation_space.plainLast)) info
    let info := dictSet "achieved_goal_dim"
      (if is_goalenv then .intVal env.observation_space.achievedGoalLast
        else .noneVal) info
    let info := dictSet "desired_goal_dim"
      (if is_goalenv then .intVal env.observation_space.desiredGoalLast
        else .noneVal) info
    (dims, info)

/-- The `gymvecenv` flag computed at the top of `get_env_dimensions`:
`env.is_vector_env` when the attribute exists, else `False`. -/
def gymvec (env : Env) : Bool :=
  match env.is_vector_env with
  | some b => b
  | none => false

/-- Helper: reading a key just written into the dictionary yields the
written value. -/
theorem lookup_dictSet_eq (k : String) (v : PyVal) (d : Dict) :
    List.lookup k (dictSet k v d) = some v := by
  simp [dictSet, List.lookup]

/-- Helper: writing one key leaves the binding of every other key
unchanged. -/
theorem lookup_dictSet_ne (k k2 : String) (v : PyVal) (d : Dict)
    (h : k ≠ k2) :
    List.lookup k (dictSet k2 v d) = List.lookup k d := by
  simp [dictSet, List.lookup, beq_eq_false_iff_ne.mpr h]

/-- Helper: looking up a key distinct from the four dimension keys after all
four writes reads the original dictionary. -/
theorem lookup_after_four_writes (k : String) (w1 w2 w3 w4 : PyVal)
    (d : Dict)
    (h1 : k ≠ "action_dim") (h2 : k ≠ "observation_dim")
    (h3 : k ≠ "achieved_goal_dim") (h4 : k ≠ "desired_goal_dim") :
    List.lookup k (dictSet "desired_goal_dim" w4 (dictSet "achieved_goal_dim"
      w3 (dictSet "observation_dim" w2 (dictSet "action_dim" w1 d)))) =
      List.lookup k d := by
  rw [lookup_dictSet_ne k _ _ _ h4, lookup_dictSet_ne k _ _ _ h3,
      lookup_dictSet_ne k _ _ _ h2, lookup_dictSet_ne k _ _ _ h1]

/-- C1: `get_datatype` checks the backend representations in a fixed order,
first match wins: a torch tensor is classified by its device kind (cpu →
`TORCH_CPU`, cuda → `TORCH_CUDA`, any other kind → unsupported-device
error), a `DeviceArray` yields `JAX`, a numpy `ndarray` yields `NUMPY`, and
any other value (e.g. a plain Python list) yields an unrecognized-type
error. -/
theorem get_datatype_classification :
    (∀ g b, get_datatype (.torch .cpu g b) = .ok .TORCH_CPU) ∧
    (∀ g b, get_datatype (.torch .cuda g b) = .ok .TORCH_CUDA) ∧
    (∀ k g b, ∃ m,
      get_datatype (.torch (.other k) g b) = .error (.unsupportedDevice m)) ∧
    (∀ b, get_datatype (.deviceArray b) = .ok .JAX) ∧
    (∀ b, get_datatype (.ndarray b) = .ok .NUMPY) ∧
    (∀ b, ∃ m, get_datatype (.pyList b) = .error (.unrecognizedType m)) :=
  ⟨fun _ _ => rfl, fun _ _ => rfl, fun _ _ _ => ⟨_, rfl⟩,
   fun _ => rfl, fun _ => rfl, fun _ => ⟨_, rfl⟩⟩

/-- C2: for `hstack`, `maximum` and `where` the result is a torch tensor
exactly when both data operands are torch tensors, a jax `DeviceArray`
exactly when both are `DeviceArray`s, and in every other combination both
operands are host-coerced and the numpy operation is applied, so mixed
backends never fail. -/
theorem dual_operand_dispatch (x y c : Value) :
    (is_tensor (hstack x y) = (is_tensor x && is_tensor y)) ∧
    (is_device_array (hstack x y) =
      (is_device_array x && is_device_array y)) ∧
    ((is_tensor x && is_tensor y) = false →
      (is_device_array x && is_device_array y) = false →
      hstack x y = .ndarray (hstackBuf (np_coerce x) (np_coerce y))) ∧
    (is_tensor (maximum x y) = (is_tensor x && is_tensor y)) ∧
    (is_device_array (maximum x y) =
      (is_device_array x && is_device_array y)) ∧
    ((is_tensor x && is_tensor y) = false →
      (is_device_array x && is_device_array y) = false →
      maximum x y = .ndarray (maximumBuf (np_coerce x) (np_coerce y))) ∧
    (is_tensor (where_select c x y) = (is_tensor x && is_tensor y)) ∧
    (is_device_array (where_select c x y) =
      (is_device_array x && is_device_array y)) ∧
    ((is_tensor x && is_tensor y) = false →
      (is_device_array x && is_device_array y) = false →
      where_select c x y =
        .ndarray (whereBuf (np_coerce c) (np_coerce x) (np_coerce y))) := by
  cases x <;> cases y <;>
    simp [hstack, maximum, where_select, is_tensor, is_device_array]

/-- Witness for C2: a mixed-backend call (torch tensor and numpy array)
does not fail and degrades to the numpy operation on host-coerced
operands. -/
theorem dual_operand_dispatch_witness :
    maximum (Value.torch .cpu false ⟨[1], [3]⟩) (Value.ndarray ⟨[1], [5]⟩) =
      .ndarray (maximumBuf (np_coerce (Value.torch .cpu false ⟨[1], [3]⟩))
        (np_coerce (Value.ndarray ⟨[1], [5]⟩))) :=
  (dual_operand_dispatch (Value.torch .cpu false ⟨[1], [3]⟩)
    (Value.ndarray ⟨[1], [5]⟩)
    (Value.ndarray ⟨[1], [1]⟩)).2.2.2.2.2.1 (by decide) (by decide)

/-- C3: converting with the `None` sentinel target returns the input itself,
unchanged. -/
theorem datatype_convert_none_passthrough (x : Value) :
    datatype_convert x none = x := rfl

/-- C4: for every target tag `T` and every value the classifier accepts,
converting to `T` and classifying the result yields exactly `T`. -/
theorem convert_then_classify (x : Value) (T : DataType)
    (h : ∃ t, get_datatype x = .ok t) :
    get_datatype (datatype_convert x (some T)) = .ok T := by
  cases x with
  | torch d g b =>
    cases d with
    | cpu => cases T <;> rfl
    | cuda => cases T <;> rfl
    | other k =>
      obtain ⟨t, ht⟩ := h
      simp [get_datatype, is_tensor, device_of] at ht
  | deviceArray b => cases T <;> rfl
  | ndarray b => cases T <;> rfl
  | pyList b =>
    obtain ⟨t, ht⟩ := h
    simp [get_datatype, is_tensor, is_device_array, is_ndarray] at ht

/-- Witness for C4: a numpy array converted to the jax tag classifies as
jax. -/
theorem convert_then_classify_witness :
    get_datatype (datatype_convert (Value.ndarray ⟨[1], [2]⟩) (some .JAX)) =
      .ok .JAX :=
  convert_then_classify (Value.ndarray ⟨[1], [2]⟩) .JAX ⟨.NUMPY, rfl⟩

/-- C5: with target `NUMPY`, a torch tensor (any device, any gradient
tracking) becomes a numpy array with the same shape and values and no
gradient tracking; a numpy array is returned as-is; any other input becomes
a fresh numpy array of its contents. -/
theorem convert_to_numpy_behavior :
    (∀ d g b, datatype_convert (.torch d g b) (some .NUMPY) = .ndarray b) ∧
    (∀ x : Value, is_ndarray x = true →
      datatype_convert x (some .NUMPY) = x) ∧
    (∀ b, datatype_convert (.deviceArray b) (some .NUMPY) = .ndarray b) ∧
    (∀ b, datatype_convert (.pyList b) (some .NUMPY) = .ndarray b) := by
  refine ⟨fun d g b => rfl, fun x h => ?_, fun b => rfl, fun b => rfl⟩
  cases x <;> simp [is_ndarray] at h ⊢
  rfl

/-- Witness for C5: the spec scenario — a CUDA tensor of shape (4,3) with
values 1..12 and gradient tracking converts to the numpy array with the
same shape and values; a numpy array converts to itself. -/
theorem convert_to_numpy_behavior_witness :
    datatype_convert
        (Value.torch .cuda true ⟨[4, 3], [1, 2, 3, 4, 5, 6, 7, 8, 9, 10, 11, 12]⟩)
        (some .NUMPY) =
      Value.ndarray ⟨[4, 3], [1, 2, 3, 4, 5, 6, 7, 8, 9, 10, 11, 12]⟩ ∧
    datatype_convert (Value.ndarray ⟨[2], [7, 8]⟩) (some .NUMPY) =
      Value.ndarray ⟨[2], [7, 8]⟩ :=
  ⟨convert_to_numpy_behavior.1 .cuda true _,
   convert_to_numpy_behavior.2.1 (Value.ndarray ⟨[2], [7, 8]⟩) rfl⟩

/-- C6: converting a value to the tag it already classifies as returns the
input itself (`Tensor.to` returns the tensor when it is already on the
requested device; the numpy and jax branches return `x` unchanged). -/
theorem convert_same_tag_identity (x : Value) (A : DataType)
    (h : get_datatype x = .ok A) :
    datatype_convert x (some A) = x := by
  cases x with
  | torch d g b =>
    cases d with
    | cpu =>
      have hA : DataType.TORCH_CPU = A := by
        have := h
        simp [get_datatype, is_tensor, device_of] at this
        exact this
      subst hA
      rfl
    | cuda =>
      have hA : DataType.TORCH_CUDA = A := by
        have := h
        simp [get_datatype, is_tensor, device_of] at this
        exact this
      subst hA
      rfl
    | other k => simp [get_datatype, is_tensor, device_of] at h
  | deviceArray b =>
    have hA : DataType.JAX = A := by
      have := h
      simp [get_datatype, is_tensor, is_device_array] at this
      exact this
    subst hA
    rfl
  | ndarray b =>
    have hA : DataType.NUMPY = A := by
      have := h
      simp [get_datatype, is_tensor, is_device_array, is_ndarray] at this
      exact this
    subst hA
    rfl
  | pyList b =>
    simp [get_datatype, is_tensor, is_device_array, is_ndarray] at h

/-- Witness for C6: a `DeviceArray` converted to the jax tag is returned
unchanged. -/
theorem convert_same_tag_identity_witness :
    datatype_convert (Value.deviceArray ⟨[1], [4]⟩) (some .JAX) =
      Value.deviceArray ⟨[1], [4]⟩ :=
  convert_same_tag_identity (Value.deviceArray ⟨[1], [4]⟩) .JAX rfl

/-- C7: for every classifiable value, converting to numpy and back to the
original tag yields a value whose buffer (shape and elements) equals the
original one. -/
theorem roundtrip_numerically_equal (x : Value) (T : DataType)
    (h : get_datatype x = .ok T) :
    bufferOf (datatype_convert (datatype_convert x (some .NUMPY)) (some T)) =
      bufferOf x := by
  cases x <;> cases T <;> rfl

/-- Witness for C7: a CUDA tensor survives the numpy round trip with its
buffer intact. -/
theorem roundtrip_numerically_equal_witness :
    bufferOf (datatype_convert
        (datatype_convert (Value.torch .cuda true ⟨[2], [3, 4]⟩)
          (some .NUMPY))
        (some .TORCH_CUDA)) =
      bufferOf (Value.torch .cuda true ⟨[2], [3, 4]⟩) :=
  roundtrip_numerically_equal (Value.torch .cuda true ⟨[2], [3, 4]⟩)
    .TORCH_CUDA rfl

/-- C9: the default of `datatype_convert`'s target argument is
`DataType.NUMPY`, not the `None` sentinel: a call with the argument omitted
converts to numpy (and so is not a passthrough in general), while an
explicit `None` is a passthrough. -/
theorem default_target_is_numpy :
    (∀ x, datatype_convert_default x = datatype_convert x (some .NUMPY)) ∧
    datatype_convert_default (Value.torch .cpu false ⟨[1], [0]⟩) ≠
      Value.torch .cpu false ⟨[1], [0]⟩ ∧
    datatype_convert (Value.torch .cpu false ⟨[1], [0]⟩) none =
      Value.torch .cpu false ⟨[1], [0]⟩ :=
  ⟨fun _ => rfl, by decide, rfl⟩

/-- C10: `get_env_dimensions` always returns the empty dictionary (the
local `dims` is never populated) and instead writes the four computed
dimension entries into the caller-supplied `info` dictionary, leaving every
other key of `info` unchanged. -/
theorem env_dimensions_return_and_mutation (info : Dict) (g : Bool)
    (env : Env) :
    (get_env_dimensions info g env).1 = [] ∧
    List.lookup "action_dim" (get_env_dimensions info g env).2 =
      some (.intVal
        (if gymvec env then env.singleActionLast else env.actionLast)) ∧
    List.lookup "observation_dim" (get_env_dimensions info g env).2 =
      some (.intVal
        (if gymvec env then
          (if g then env.single_observation_space.observationLast
            else env.single_observation_space.plainLast)
          else
          (if g then env.observation_space.observationLast
            else env.observation_space.plainLast))) ∧
    List.lookup "achieved_goal_dim" (get_env_dimensions info g env).2 =
      some (if g then
          .intVal (if gymvec env then
            env.single_observation_space.achievedGoalLast
            else env.observation_space.achievedGoalLast)
        else .noneVal) ∧
    List.lookup "desired_goal_dim" (get_env_dimensions info g env).2 =
      some (if g then
          .intVal (if gymvec env then
            env.single_observation_space.desiredGoalLast
            else env.observation_space.desiredGoalLast)
        else .noneVal) ∧
    ∀ k, k ≠ "action_dim" → k ≠ "observation_dim" →
      k ≠ "achieved_goal_dim" → k ≠ "desired_goal_dim" →
      List.lookup k (get_env_dimensions info g env).2 =
        List.lookup k info := by
  obtain ⟨v, aL, saL, os, sos⟩ := env
  rcases v with _ | v
  · cases g <;>
      exact ⟨rfl, rfl, rfl, rfl, rfl,
        fun k h1 h2 h3 h4 => lookup_after_four_writes k _ _ _ _ info h1 h2 h3 h4⟩
  · cases v <;> cases g <;>
      exact ⟨rfl, rfl, rfl, rfl, rfl,
        fun k h1 h2 h3 h4 => lookup_after_four_writes k _ _ _ _ info h1 h2 h3 h4⟩

/-- Witness for C10: on a concrete vectorized goal environment the call
returns the empty dictionary and a pre-existing unrelated key of `info`
keeps its binding. -/
theorem env_dimensions_return_and_mutation_witness :
    (get_env_dimensions [("foo", .intVal 7)] true
      ⟨some true, 3, 4, ⟨1, 2, 3, 4⟩, ⟨5, 6, 7, 8⟩⟩).1 = [] ∧
    List.lookup "foo" (get_env_dimensions [("foo", .intVal 7)] true
      ⟨some true, 3, 4, ⟨1, 2, 3, 4⟩, ⟨5, 6, 7, 8⟩⟩).2 =
      List.lookup "foo" [("foo", PyVal.intVal 7)] :=
  ⟨(env_dimensions_return_and_mutation [("foo", .intVal 7)] true
      ⟨some true, 3, 4, ⟨1, 2, 3, 4⟩, ⟨5, 6, 7, 8⟩⟩).1,
   (env_dimensions_return_and_mutation [("foo", .intVal 7)] true
      ⟨some true, 3, 4, ⟨1, 2, 3, 4⟩, ⟨5, 6, 7, 8⟩⟩).2.2.2.2.2 "foo"
      (by decide) (by decide) (by decide) (by decide)⟩

end Xpag
